import Mathlib

/-!
Verification of `umami/calculations/metric/chi_intercept_gradient.py`.

The module under study consists of a validator `_validate_chi_finder` and
two metric wrappers `chi_intercept` and `chi_gradient`.  Each wrapper
validates that its argument is an instance of the external `ChiFinder`
class, invokes the handle's regression routine
`best_fit_chi_elevation_gradient_and_intercept()`, unpacks the returned
pair `slp, incp = ...`, and returns one component.

The `ChiFinder` class itself belongs to landlab, an external collaborator;
it is embedded from the contract stated in the specification (an opaque
handle exposing a best-fit linear reduction returning `(slope, intercept)`,
assumed deterministic in the handle state and non-mutating).  Python
exceptions are embedded as an error sum type; the exception that a raise
site produces is recorded by the corresponding constructor together with
its payload.
-/

namespace Umami

/-- Observable events during one metric-function invocation: the entry
into the validator and each invocation of the handle's regression
routine.  Used to express "performs no regression call" and
"n invocations perform n regression calls". -/
inductive Event where
  | validateCall : Event
  | fitCall : Event
deriving DecidableEq, Repr

/-- Python exceptions that the embedded code can raise.

* `valueError msg` — a `ValueError` carrying a message string; the raise
  site in `_validate_chi_finder` builds it as `ValueError("")`.
* `regressionError e` — a failure raised inside the external regression
  routine, of externally chosen payload type `ε`; the constructor only
  marks the raise site and carries the payload `e` unchanged.
* `unpackError got` — the failure of the tuple unpacking
  `slp, incp = seq` when `seq` has `got ≠ 2` elements.
* `attributeError` — attribute lookup failure on an object without the
  regression method (unreachable after successful validation). -/
inductive PyError (ε : Type) where
  | valueError (msg : String) : PyError ε
  | regressionError (e : ε) : PyError ε
  | unpackError (got : Nat) : PyError ε
  | attributeError : PyError ε

/-- Modelled from the spec: the external `ChiFinder` analysis handle
(landlab), "an opaque object exposing a capability
`best_fit_linear_reduction() -> (slope, intercept)`".  The handle keeps
further internal state of an arbitrary type `σ` (grid, chi field, drainage
threshold, ...) that the wrappers never inspect.  The regression routine
is assumed deterministic in the handle state and non-mutating (the spec's
external contract), so it is embedded as a stored outcome: either a
regression failure of payload `ε` or a returned sequence of scalars of
type `α` (the pair `(slope, intercept)` in the normal case; an arbitrary
length is allowed so that the wrapper's unpacking behaviour is visible). -/
structure ChiFinder (σ ε α : Type) where
  state : σ
  best_fit_chi_elevation_gradient_and_intercept : Except ε (List α)

/-- Modelled from the spec: the universe of Python objects a caller might
pass to a metric function — a genuine `ChiFinder` instance, `None`, a raw
array, or any unrelated object. -/
inductive PyObj (σ ε α : Type) where
  | chiFinder (cf : ChiFinder σ ε α) : PyObj σ ε α
  | pyNone : PyObj σ ε α
  | ndarray (xs : List α) : PyObj σ ε α
  | other (tag : String) : PyObj σ ε α

/-- Python's `isinstance(chi_finder, ChiFinder)` test. -/
def PyObj.isChiFinder {σ ε α : Type} : PyObj σ ε α → Bool
  | .chiFinder _ => true
  | _ => false

/-- Embedding of `_validate_chi_finder`: if the argument is not a
`ChiFinder` instance, set `msg = ""` and raise `ValueError(msg)`;
otherwise return `None`. -/
def _validate_chi_finder {σ ε α : Type} (chi_finder : PyObj σ ε α) :
    Except (PyError ε) Unit :=
  if chi_finder.isChiFinder then Except.ok ()
  else
    let msg : String := ""
    Except.error (PyError.valueError msg)

/-- Embedding of the method call
`chi_finder.best_fit_chi_elevation_gradient_and_intercept()`: on a
`ChiFinder` it yields the routine's outcome, a regression failure being
raised with its payload unchanged; on any other object the attribute
lookup itself fails. -/
def callBestFit {σ ε α : Type} (chi_finder : PyObj σ ε α) :
    Except (PyError ε) (List α) :=
  match chi_finder with
  | .chiFinder cf =>
      (cf.best_fit_chi_elevation_gradient_and_intercept).mapError
        PyError.regressionError
  | _ => Except.error PyError.attributeError

/-- Embedding of Python tuple unpacking `slp, incp = seq`: succeeds
exactly when the sequence has two elements, otherwise raises an
unpacking failure recording the actual length. -/
def unpack2 {ε α : Type} (xs : List α) : Except (PyError ε) (α × α) :=
  match xs with
  | [a, b] => Except.ok (a, b)
  | _ => Except.error (PyError.unpackError xs.length)

/-- Embedding of `chi_intercept` (result only): validate, call the
handle's regression routine, unpack `slp, incp`, return `incp`. -/
def chi_intercept {σ ε α : Type} (chi_finder : PyObj σ ε α) :
    Except (PyError ε) α := do
  _validate_chi_finder chi_finder
  let fit ← callBestFit chi_finder
  let (_slp, incp) ← unpack2 fit
  pure incp

/-- Embedding of `chi_gradient` (result only): validate, call the
handle's regression routine, unpack `slp, incp`, return `slp`. -/
def chi_gradient {σ ε α : Type} (chi_finder : PyObj σ ε α) :
    Except (PyError ε) α := do
  _validate_chi_finder chi_finder
  let fit ← callBestFit chi_finder
  let (slp, _incp) ← unpack2 fit
  pure slp

/-- Instrumented state-passing run of `chi_intercept`: the returned
triple is the call's outcome, the handle after the call, and the trace of
observable events in order.  The source performs no assignment to the
handle and the regression routine is non-mutating by the external
contract, so the handle component records what the state is after the
statements execute. -/
def chi_interceptStep {σ ε α : Type} (chi_finder : PyObj σ ε α) :
    Except (PyError ε) α × PyObj σ ε α × List Event :=
  match _validate_chi_finder chi_finder with
  | .error e => (Except.error e, chi_finder, [Event.validateCall])
  | .ok () =>
      match callBestFit chi_finder with
      | .error e =>
          (Except.error e, chi_finder, [Event.validateCall, Event.fitCall])
      | .ok fit =>
          match unpack2 (ε := ε) fit with
          | .error e =>
              (Except.error e, chi_finder,
                [Event.validateCall, Event.fitCall])
          | .ok (_slp, incp) =>
              (Except.ok incp, chi_finder,
                [Event.validateCall, Event.fitCall])

/-- Instrumented state-passing run of `chi_gradient`; identical control
flow to `chi_interceptStep` except the slope component is returned. -/
def chi_gradientStep {σ ε α : Type} (chi_finder : PyObj σ ε α) :
    Except (PyError ε) α × PyObj σ ε α × List Event :=
  match _validate_chi_finder chi_finder with
  | .error e => (Except.error e, chi_finder, [Event.validateCall])
  | .ok () =>
      match callBestFit chi_finder with
      | .error e =>
          (Except.error e, chi_finder, [Event.validateCall, Event.fitCall])
      | .ok fit =>
          match unpack2 (ε := ε) fit with
          | .error e =>
              (Except.error e, chi_finder,
                [Event.validateCall, Event.fitCall])
          | .ok (slp, _incp) =>
              (Except.ok slp, chi_finder,
                [Event.validateCall, Event.fitCall])

/-- `n` successive invocations of an instrumented metric run, each one
starting from the handle state the previous call left behind; the result
is the concatenated event trace. -/
def iterRuns {σ ε α : Type}
    (step : PyObj σ ε α → Except (PyError ε) α × PyObj σ ε α × List Event) :
    Nat → PyObj σ ε α → List Event
  | 0, _ => []
  | Nat.succ n, h => (step h).2.2 ++ iterRuns step n ((step h).2.1)

end Umami

namespace Umami

/-- On any object that is not a `ChiFinder`, `chi_intercept` stops at
validation with the empty-message `ValueError`. -/
theorem chi_intercept_invalid {σ ε α : Type} (h : PyObj σ ε α)
    (hv : h.isChiFinder = false) :
    chi_intercept h = Except.error (PyError.valueError "") := by
  cases h with
  | chiFinder cf => simp [PyObj.isChiFinder] at hv
  | pyNone => rfl
  | ndarray xs => rfl
  | other tag => rfl

/-- On any object that is not a `ChiFinder`, `chi_gradient` stops at
validation with the empty-message `ValueError`. -/
theorem chi_gradient_invalid {σ ε α : Type} (h : PyObj σ ε α)
    (hv : h.isChiFinder = false) :
    chi_gradient h = Except.error (PyError.valueError "") := by
  cases h with
  | chiFinder cf => simp [PyObj.isChiFinder] at hv
  | pyNone => rfl
  | ndarray xs => rfl
  | other tag => rfl

/-- Instrumented `chi_intercept` run on a non-`ChiFinder` object: the
validation error is returned, the handle is unchanged, and the trace
holds no regression call. -/
theorem chi_interceptStep_invalid {σ ε α : Type} (h : PyObj σ ε α)
    (hv : h.isChiFinder = false) :
    chi_interceptStep h =
      (Except.error (PyError.valueError ""), h, [Event.validateCall]) := by
  cases h with
  | chiFinder cf => simp [PyObj.isChiFinder] at hv
  | pyNone => rfl
  | ndarray xs => rfl
  | other tag => rfl

/-- Instrumented `chi_gradient` run on a non-`ChiFinder` object: the
validation error is returned, the handle is unchanged, and the trace
holds no regression call. -/
theorem chi_gradientStep_invalid {σ ε α : Type} (h : PyObj σ ε α)
    (hv : h.isChiFinder = false) :
    chi_gradientStep h =
      (Except.error (PyError.valueError ""), h, [Event.validateCall]) := by
  cases h with
  | chiFinder cf => simp [PyObj.isChiFinder] at hv
  | pyNone => rfl
  | ndarray xs => rfl
  | other tag => rfl

/-- Instrumented `chi_intercept` run on a `ChiFinder`: the outcome is the
plain embedding's outcome, the handle is unchanged, and the trace holds
exactly one validation entry followed by one regression call. -/
theorem chi_interceptStep_chiFinder {σ ε α : Type} (cf : ChiFinder σ ε α) :
    chi_interceptStep (PyObj.chiFinder cf) =
      (chi_intercept (PyObj.chiFinder cf), PyObj.chiFinder cf,
        [Event.validateCall, Event.fitCall]) := by
  cases hfit : cf.best_fit_chi_elevation_gradient_and_intercept with
  | error e =>
      simp [chi_interceptStep, chi_intercept, _validate_chi_finder,
        PyObj.isChiFinder, callBestFit, hfit, Except.mapError, bind,
        Except.bind]
  | ok xs =>
      match xs with
      | [] =>
          simp [chi_interceptStep, chi_intercept, _validate_chi_finder,
            PyObj.isChiFinder, callBestFit, hfit, Except.mapError, unpack2,
            bind, Except.bind]
      | [a] =>
          simp [chi_interceptStep, chi_intercept, _validate_chi_finder,
            PyObj.isChiFinder, callBestFit, hfit, Except.mapError, unpack2,
            bind, Except.bind]
      | [a, b] =>
          simp [chi_interceptStep, chi_intercept, _validate_chi_finder,
            PyObj.isChiFinder, callBestFit, hfit, Except.mapError, unpack2,
            bind, Except.bind, pure, Except.pure]
      | a :: b :: c :: rest =>
          simp [chi_interceptStep, chi_intercept, _validate_chi_finder,
            PyObj.isChiFinder, callBestFit, hfit, Except.mapError, unpack2,
            bind, Except.bind]

/-- Instrumented `chi_gradient` run on a `ChiFinder`: the outcome is the
plain embedding's outcome, the handle is unchanged, and the trace holds
exactly one validation entry followed by one regression call. -/
theorem chi_gradientStep_chiFinder {σ ε α : Type} (cf : ChiFinder σ ε α) :
    chi_gradientStep (PyObj.chiFinder cf) =
      (chi_gradient (PyObj.chiFinder cf), PyObj.chiFinder cf,
        [Event.validateCall, Event.fitCall]) := by
  cases hfit : cf.best_fit_chi_elevation_gradient_and_intercept with
  | error e =>
      simp [chi_gradientStep, chi_gradient, _validate_chi_finder,
        PyObj.isChiFinder, callBestFit, hfit, Except.mapError, bind,
        Except.bind]
  | ok xs =>
      match xs with
      | [] =>
          simp [chi_gradientStep, chi_gradient, _validate_chi_finder,
            PyObj.isChiFinder, callBestFit, hfit, Except.mapError, unpack2,
            bind, Except.bind]
      | [a] =>
          simp [chi_gradientStep, chi_gradient, _validate_chi_finder,
            PyObj.isChiFinder, callBestFit, hfit, Except.mapError, unpack2,
            bind, Except.bind]
      | [a, b] =>
          simp [chi_gradientStep, chi_gradient, _validate_chi_finder,
            PyObj.isChiFinder, callBestFit, hfit, Except.mapError, unpack2,
            bind, Except.bind, pure, Except.pure]
      | a :: b :: c :: rest =>
          simp [chi_gradientStep, chi_gradient, _validate_chi_finder,
            PyObj.isChiFinder, callBestFit, hfit, Except.mapError, unpack2,
            bind, Except.bind]

/-- Every instrumented run leaves the handle unchanged, for any object. -/
theorem stepHandle_eq {σ ε α : Type} (h : PyObj σ ε α) :
    (chi_interceptStep h).2.1 = h ∧ (chi_gradientStep h).2.1 = h := by
  cases h with
  | chiFinder cf =>
      rw [chi_interceptStep_chiFinder, chi_gradientStep_chiFinder]
      exact ⟨rfl, rfl⟩
  | pyNone => exact ⟨rfl, rfl⟩
  | ndarray xs => exact ⟨rfl, rfl⟩
  | other tag => exact ⟨rfl, rfl⟩

end Umami

namespace Umami

/-- Claim C1: for every handle that is a `ChiFinder` instance whose
best-fit routine returns the pair `(slope, intercept)`, `chi_intercept`
returns exactly the intercept (second component) and `chi_gradient`
returns exactly the slope (first component), with no other
transformation applied. -/
theorem C1_projection {σ ε α : Type} (cf : ChiFinder σ ε α) (slp incp : α)
    (hfit : cf.best_fit_chi_elevation_gradient_and_intercept =
      Except.ok [slp, incp]) :
    chi_intercept (PyObj.chiFinder cf) = Except.ok incp ∧
    chi_gradient (PyObj.chiFinder cf) = Except.ok slp := by
  constructor <;>
    simp [chi_intercept, chi_gradient, _validate_chi_finder,
      PyObj.isChiFinder, callBestFit, hfit, Except.mapError, unpack2, bind,
      Except.bind, pure, Except.pure]

/-- Witness for C1 at a concrete handle whose routine returns `(2, 5)`. -/
theorem C1_projection_witness :
    chi_intercept (PyObj.chiFinder
        (ChiFinder.mk () (Except.ok [(2 : Int), 5]) :
          ChiFinder Unit String Int)) = Except.ok 5 ∧
    chi_gradient (PyObj.chiFinder
        (ChiFinder.mk () (Except.ok [(2 : Int), 5]) :
          ChiFinder Unit String Int)) = Except.ok 2 :=
  C1_projection (ChiFinder.mk () (Except.ok [2, 5])) 2 5 rfl

/-- Claim C2: on any object that is not a `ChiFinder` instance
(`None`, a raw array, or any unrelated object), both metric functions
raise the wrong-handle-type error, and the regression routine is never
invoked in that run (no `fitCall` event in the trace). -/
theorem C2_type_gating {σ ε α : Type} (h : PyObj σ ε α)
    (hv : h.isChiFinder = false) :
    chi_intercept h = Except.error (PyError.valueError "") ∧
    chi_gradient h = Except.error (PyError.valueError "") ∧
    ((chi_interceptStep h).2.2).count Event.fitCall = 0 ∧
    ((chi_gradientStep h).2.2).count Event.fitCall = 0 := by
  refine ⟨chi_intercept_invalid h hv, chi_gradient_invalid h hv, ?_, ?_⟩
  · rw [chi_interceptStep_invalid h hv]
    rfl
  · rw [chi_gradientStep_invalid h hv]
    rfl

/-- Witness for C2 at the concrete object `None`. -/
theorem C2_type_gating_witness :
    chi_intercept (PyObj.pyNone : PyObj Unit String Int) =
      Except.error (PyError.valueError "") ∧
    chi_gradient (PyObj.pyNone : PyObj Unit String Int) =
      Except.error (PyError.valueError "") ∧
    ((chi_interceptStep (PyObj.pyNone : PyObj Unit String Int)).2.2).count
      Event.fitCall = 0 ∧
    ((chi_gradientStep (PyObj.pyNone : PyObj Unit String Int)).2.2).count
      Event.fitCall = 0 :=
  C2_type_gating PyObj.pyNone rfl

/-- Claim C3: the validator returns (with no other effect — it is a pure
function into `Except`) exactly when the handle is a `ChiFinder`
instance, and raises the wrong-handle-type error exactly when it is
not. -/
theorem C3_validator_spec {σ ε α : Type} (h : PyObj σ ε α) :
    (_validate_chi_finder h = Except.ok () ↔ h.isChiFinder = true) ∧
    (_validate_chi_finder h = Except.error (PyError.valueError "") ↔
      h.isChiFinder = false) := by
  cases h <;> simp [_validate_chi_finder, PyObj.isChiFinder]

/-- Claim C4: a failure raised by the underlying fit routine propagates
out of `chi_intercept` and `chi_gradient` with its payload unchanged —
it is not caught, not converted to a returned scalar, and the routine is
called exactly once (no retry). -/
theorem C4_regression_failure_propagates {σ ε α : Type}
    (cf : ChiFinder σ ε α) (e : ε)
    (hfit : cf.best_fit_chi_elevation_gradient_and_intercept =
      Except.error e) :
    chi_intercept (PyObj.chiFinder cf) =
      Except.error (PyError.regressionError e) ∧
    chi_gradient (PyObj.chiFinder cf) =
      Except.error (PyError.regressionError e) ∧
    ((chi_interceptStep (PyObj.chiFinder cf)).2.2).count Event.fitCall = 1 ∧
    ((chi_gradientStep (PyObj.chiFinder cf)).2.2).count Event.fitCall = 1 := by
  refine ⟨?_, ?_, ?_, ?_⟩
  · simp [chi_intercept, _validate_chi_finder, PyObj.isChiFinder,
      callBestFit, hfit, Except.mapError, bind, Except.bind]
  · simp [chi_gradient, _validate_chi_finder, PyObj.isChiFinder,
      callBestFit, hfit, Except.mapError, bind, Except.bind]
  · rw [chi_interceptStep_chiFinder]
    rfl
  · rw [chi_gradientStep_chiFinder]
    rfl

/-- Witness for C4 at a concrete handle whose routine fails with the
message "insufficient distinct samples". -/
theorem C4_regression_failure_witness :
    chi_intercept (PyObj.chiFinder
        (ChiFinder.mk () (Except.error "insufficient distinct samples") :
          ChiFinder Unit String Int)) =
      Except.error (PyError.regressionError "insufficient distinct samples") ∧
    chi_gradient (PyObj.chiFinder
        (ChiFinder.mk () (Except.error "insufficient distinct samples") :
          ChiFinder Unit String Int)) =
      Except.error (PyError.regressionError "insufficient distinct samples") ∧
    ((chi_interceptStep (PyObj.chiFinder
        (ChiFinder.mk () (Except.error "insufficient distinct samples") :
          ChiFinder Unit String Int))).2.2).count Event.fitCall = 1 ∧
    ((chi_gradientStep (PyObj.chiFinder
        (ChiFinder.mk () (Except.error "insufficient distinct samples") :
          ChiFinder Unit String Int))).2.2).count Event.fitCall = 1 :=
  C4_regression_failure_propagates
    (ChiFinder.mk () (Except.error "insufficient distinct samples"))
    "insufficient distinct samples" rfl

/-- Claim C5: every error the validator raises is exactly
`ValueError("")` — an empty message string and no other payload (the
constructor carries nothing but the message). -/
theorem C5_error_payload {σ ε α : Type} (h : PyObj σ ε α) (e : PyError ε)
    (he : _validate_chi_finder h = Except.error e) :
    e = PyError.valueError "" := by
  cases h <;> simp_all [_validate_chi_finder, PyObj.isChiFinder]

/-- Witness for C5 at the concrete object `None`. -/
theorem C5_error_payload_witness :
    _validate_chi_finder (PyObj.pyNone : PyObj Unit String Int) =
      Except.error (PyError.valueError "") ∧
    (PyError.valueError "" : PyError String) = PyError.valueError "" :=
  ⟨rfl, C5_error_payload (PyObj.pyNone : PyObj Unit String Int)
    (PyError.valueError "") rfl⟩

/-- Claim C6: two-run determinism of the wrappers.  A second call run on
the handle state the first call left behind returns the same outcome as
the first, and the outcome depends only on the value the handle's
regression routine returns: two handles with the same routine outcome
(whatever their other state) yield identical results. -/
theorem C6_determinism {σ ε α : Type} (h : PyObj σ ε α)
    (cf1 cf2 : ChiFinder σ ε α)
    (hfit : cf1.best_fit_chi_elevation_gradient_and_intercept =
      cf2.best_fit_chi_elevation_gradient_and_intercept) :
    (chi_interceptStep ((chi_interceptStep h).2.1)).1 =
      (chi_interceptStep h).1 ∧
    (chi_gradientStep ((chi_gradientStep h).2.1)).1 =
      (chi_gradientStep h).1 ∧
    chi_intercept (PyObj.chiFinder cf1) = chi_intercept (PyObj.chiFinder cf2) ∧
    chi_gradient (PyObj.chiFinder cf1) = chi_gradient (PyObj.chiFinder cf2) := by
  refine ⟨?_, ?_, ?_, ?_⟩
  · rw [(stepHandle_eq h).1]
  · rw [(stepHandle_eq h).2]
  · simp [chi_intercept, _validate_chi_finder, PyObj.isChiFinder,
      callBestFit, hfit]
  · simp [chi_gradient, _validate_chi_finder, PyObj.isChiFinder,
      callBestFit, hfit]

/-- Witness for C6 at two concrete handles that differ in internal state
but share the routine outcome `(3, 4)`. -/
theorem C6_determinism_witness :
    (ChiFinder.mk true (Except.ok [(3 : Int), 4]) :
        ChiFinder Bool String Int).best_fit_chi_elevation_gradient_and_intercept =
      (ChiFinder.mk false (Except.ok [(3 : Int), 4]) :
        ChiFinder Bool String Int).best_fit_chi_elevation_gradient_and_intercept ∧
    chi_intercept (PyObj.chiFinder
        (ChiFinder.mk true (Except.ok [(3 : Int), 4]) :
          ChiFinder Bool String Int)) =
      chi_intercept (PyObj.chiFinder
        (ChiFinder.mk false (Except.ok [(3 : Int), 4]))) ∧
    chi_gradient (PyObj.chiFinder
        (ChiFinder.mk true (Except.ok [(3 : Int), 4]) :
          ChiFinder Bool String Int)) =
      chi_gradient (PyObj.chiFinder
        (ChiFinder.mk false (Except.ok [(3 : Int), 4]))) :=
  ⟨rfl,
    (C6_determinism (PyObj.pyNone : PyObj Bool String Int)
      (ChiFinder.mk true (Except.ok [3, 4]))
      (ChiFinder.mk false (Except.ok [3, 4])) rfl).2.2.1,
    (C6_determinism (PyObj.pyNone : PyObj Bool String Int)
      (ChiFinder.mk true (Except.ok [3, 4]))
      (ChiFinder.mk false (Except.ok [3, 4])) rfl).2.2.2⟩

/-- Claim C7: no caching — on a valid handle a single run of either
metric function performs exactly one regression call, and `n` successive
runs perform exactly `n` regression calls. -/
theorem C7_no_caching {σ ε α : Type} (h : PyObj σ ε α)
    (hv : h.isChiFinder = true) (n : Nat) :
    ((chi_interceptStep h).2.2).count Event.fitCall = 1 ∧
    ((chi_gradientStep h).2.2).count Event.fitCall = 1 ∧
    (iterRuns chi_interceptStep n h).count Event.fitCall = n ∧
    (iterRuns chi_gradientStep n h).count Event.fitCall = n := by
  cases h with
  | chiFinder cf =>
      refine ⟨?_, ?_, ?_, ?_⟩
      · rw [chi_interceptStep_chiFinder]
        rfl
      · rw [chi_gradientStep_chiFinder]
        rfl
      · induction n with
        | zero => rfl
        | succ n ih =>
            simp [iterRuns, chi_interceptStep_chiFinder, List.count_append,
              List.count_cons, List.count_nil, ih]
      · induction n with
        | zero => rfl
        | succ n ih =>
            simp [iterRuns, chi_gradientStep_chiFinder, List.count_append,
              List.count_cons, List.count_nil, ih]
  | pyNone => simp [PyObj.isChiFinder] at hv
  | ndarray xs => simp [PyObj.isChiFinder] at hv
  | other tag => simp [PyObj.isChiFinder] at hv

/-- Witness for C7 at a concrete valid handle and three successive
runs. -/
theorem C7_no_caching_witness :
    ((chi_interceptStep (PyObj.chiFinder
        (ChiFinder.mk () (Except.ok [(1 : Int), 2]) :
          ChiFinder Unit String Int))).2.2).count Event.fitCall = 1 ∧
    ((chi_gradientStep (PyObj.chiFinder
        (ChiFinder.mk () (Except.ok [(1 : Int), 2]) :
          ChiFinder Unit String Int))).2.2).count Event.fitCall = 1 ∧
    (iterRuns chi_interceptStep 3 (PyObj.chiFinder
        (ChiFinder.mk () (Except.ok [(1 : Int), 2]) :
          ChiFinder Unit String Int))).count Event.fitCall = 3 ∧
    (iterRuns chi_gradientStep 3 (PyObj.chiFinder
        (ChiFinder.mk () (Except.ok [(1 : Int), 2]) :
          ChiFinder Unit String Int))).count Event.fitCall = 3 :=
  C7_no_caching (PyObj.chiFinder (ChiFinder.mk () (Except.ok [1, 2])))
    rfl 3

/-- Claim C8: frame property — for every object, whether the call
returns or raises, the handle after a metric-function run equals the
handle before it; the wrappers write nothing (the regression routine is
non-mutating by the external contract embedded in `ChiFinder`). -/
theorem C8_frame {σ ε α : Type} (h : PyObj σ ε α) :
    (chi_interceptStep h).2.1 = h ∧ (chi_gradientStep h).2.1 = h :=
  stepHandle_eq h

/-- Claim C10: when a valid handle's routine returns a sequence whose
length is not two, both metric functions raise a tuple-unpacking failure
rather than returning a scalar; a scalar is returned only when the
routine yields exactly two values. -/
theorem C10_unpack_arity {σ ε α : Type} (cf : ChiFinder σ ε α)
    (xs : List α)
    (hfit : cf.best_fit_chi_elevation_gradient_and_intercept =
      Except.ok xs) :
    (xs.length ≠ 2 →
      chi_intercept (PyObj.chiFinder cf) =
        Except.error (PyError.unpackError xs.length) ∧
      chi_gradient (PyObj.chiFinder cf) =
        Except.error (PyError.unpackError xs.length)) ∧
    (∀ v, chi_intercept (PyObj.chiFinder cf) = Except.ok v →
      xs.length = 2) ∧
    (∀ v, chi_gradient (PyObj.chiFinder cf) = Except.ok v →
      xs.length = 2) := by
  match xs with
  | [] =>
      refine ⟨fun _ => ?_, fun v hval => ?_, fun v hval => ?_⟩ <;>
        simp_all [chi_intercept, chi_gradient, _validate_chi_finder,
          PyObj.isChiFinder, callBestFit, hfit, Except.mapError, unpack2,
          bind, Except.bind]
  | [a] =>
      refine ⟨fun _ => ?_, fun v hval => ?_, fun v hval => ?_⟩ <;>
        simp_all [chi_intercept, chi_gradient, _validate_chi_finder,
          PyObj.isChiFinder, callBestFit, hfit, Except.mapError, unpack2,
          bind, Except.bind]
  | [a, b] =>
      refine ⟨fun hlen => absurd rfl hlen, fun v hval => rfl,
        fun v hval => rfl⟩
  | a :: b :: c :: rest =>
      refine ⟨fun _ => ?_, fun v hval => ?_, fun v hval => ?_⟩ <;>
        simp_all [chi_intercept, chi_gradient, _validate_chi_finder,
          PyObj.isChiFinder, callBestFit, hfit, Except.mapError, unpack2,
          bind, Except.bind]

/-- Witness for C10 at a concrete handle whose routine returns three
values. -/
theorem C10_unpack_arity_witness :
    chi_intercept (PyObj.chiFinder
        (ChiFinder.mk () (Except.ok [(1 : Int), 2, 3]) :
          ChiFinder Unit String Int)) =
      Except.error (PyError.unpackError 3) ∧
    chi_gradient (PyObj.chiFinder
        (ChiFinder.mk () (Except.ok [(1 : Int), 2, 3]) :
          ChiFinder Unit String Int)) =
      Except.error (PyError.unpackError 3) :=
  (C10_unpack_arity (ChiFinder.mk () (Except.ok [1, 2, 3])) [1, 2, 3]
    rfl).1 (by decide)

end Umami
